import Mathlib

/-!
Verification of `src/zget/put.py` (zget's sending side): the request
handling of `FileHandler.do_GET`, the single-request serving session, the
token codec, and the lifecycle of `put` (service announcement, teardown,
timeout determination).  File contents are modelled as lists of byte
values; machine integers play no role.
-/

namespace ZgetPut

/-- Chunk size of the serving loop: `fh.read(1024 * 8)` in `do_GET`. -/
def chunkSize : Nat := 1024 * 8

/-- `os.path.basename`: the part of a path after the last `/`.  The fold
keeps the characters read since the most recent separator. -/
def os_path_basename (p : String) : String :=
  String.mk (p.toList.foldl (fun acc c => if c = '/' then [] else acc ++ [c]) [])

/-- The read loop of `do_GET` obtains the file in chunks of `chunkSize`
bytes, stopping at the first empty read. -/
def readChunks (data : List Nat) : List (List Nat) :=
  if h : data = [] then []
  else data.take chunkSize :: readChunks (data.drop chunkSize)
termination_by data.length
decreasing_by
  have h1 : 0 < data.length := List.length_pos.mpr h
  have hc : chunkSize = 8192 := rfl
  simp only [List.length_drop, hc]
  omega

/-- The body-writing loop of `do_GET`: each chunk is written, and after
each write the reporthook (when configured) is called with
`(i, chunkSize, maxsize)`, after which `i` is incremented.  Returns the
bytes written and the list of reporthook invocations. -/
def serveLoop (chunks : List (List Nat)) (i maxsize : Nat) (hook : Bool) :
    List Nat × List (Nat × Nat × Nat) :=
  match chunks with
  | [] => ([], [])
  | c :: rest =>
      let r := serveLoop rest (i + 1) maxsize hook
      (c ++ r.1, (if hook then [(i, chunkSize, maxsize)] else []) ++ r.2)

/-- An HTTP response as assembled by the handler. -/
structure HttpResponse where
  status : Nat
  contentType : Option String
  contentDisposition : Option String
  contentLength : Option Nat
  body : List Nat
deriving DecidableEq

/-- The `StateHTTPServer` attributes consulted by the handler: `put` sets
`server.token = secret_token`, `server.filename`, `server.basename` and
`server.reporthook`; `downloaded` starts out `False`. -/
structure ServerState where
  token : String
  filename : String
  basename : String
  reporthook : Bool
  downloaded : Bool
deriving DecidableEq

/-- Result of one `do_GET` call: the response sent, the reporthook
invocations, the `server.downloaded` flag afterwards, and whether the
handler raised (`RuntimeError` on an invalid path). -/
structure GetResult where
  response : HttpResponse
  hookCalls : List (Nat × Nat × Nat)
  downloaded : Bool
  handlerError : Bool
deriving DecidableEq

/-- The rejection answer: `send_response(404)` then `end_headers()`, no
headers beyond the defaults and no body. -/
def response404 : HttpResponse :=
  { status := 404, contentType := none, contentDisposition := none,
    contentLength := none, body := [] }

/-- The path test of `do_GET`:
`self.path in ('/' + self.server.token, '/' + self.server.basename)`. -/
def acceptedPath (st : ServerState) (p : String) : Prop :=
  p = "/" ++ st.token ∨ p = "/" ++ st.basename

instance (st : ServerState) (p : String) : Decidable (acceptedPath st p) := by
  unfold acceptedPath; infer_instance

/-- `FileHandler.do_GET`, embedded.  `fileData` is the content of the file
on disk, so `maxsize = os.path.getsize(full_path)` is its length at open
time.  On an accepted path: status 200, octet-stream content type, inline
content disposition built from `os.path.basename(self.server.filename)`,
content length, the chunked body with reporthook calls, then
`self.server.downloaded = True`.  On any other path: a 404 with empty
body, after which the handler raises `RuntimeError`. -/
def do_GET (st : ServerState) (fileData : List Nat) (path : String) : GetResult :=
  if acceptedPath st path then
    { response :=
        { status := 200,
          contentType := some "application/octet-stream",
          contentDisposition :=
            some ("inline; filename=\"" ++ os_path_basename st.filename ++ "\""),
          contentLength := some fileData.length,
          body := (serveLoop (readChunks fileData) 0 fileData.length st.reporthook).1 },
      hookCalls := (serveLoop (readChunks fileData) 0 fileData.length st.reporthook).2,
      downloaded := true,
      handlerError := false }
  else
    { response := response404,
      hookCalls := [],
      downloaded := st.downloaded,
      handlerError := true }

/-- `server.handle_request()` processes at most one inbound request; an
exception escaping the handler is caught by the server layer
(`handle_error`), so requests queued after the first are never handled.
Returns the responses sent and the final `downloaded` flag. -/
def runSession (st : ServerState) (fileData : List Nat) (requests : List String) :
    List HttpResponse × Bool :=
  match requests with
  | [] => ([], st.downloaded)
  | p :: _ => ([(do_GET st fileData p).response], (do_GET st fileData p).downloaded)

theorem readChunks_nil : readChunks [] = [] := by
  unfold readChunks; simp

theorem readChunks_cons (data : List Nat) (h : data ≠ []) :
    readChunks data = data.take chunkSize :: readChunks (data.drop chunkSize) := by
  conv_lhs => unfold readChunks
  simp [h]

theorem readChunks_join (d : List Nat) : (readChunks d).flatten = d := by
  induction d using readChunks.induct with
  | case1 => simp [readChunks_nil]
  | case2 d h ih =>
      rw [readChunks_cons d h]
      simp [List.flatten_cons, ih, List.take_append_drop]

theorem readChunks_sum_length (d : List Nat) :
    ((readChunks d).map List.length).sum = d.length := by
  rw [← List.length_flatten, readChunks_join]

theorem readChunks_length_bounds (d : List Nat) :
    d.length ≤ (readChunks d).length * chunkSize ∧
    (readChunks d).length * chunkSize < d.length + chunkSize := by
  have hc : chunkSize = 8192 := rfl
  induction d using readChunks.induct with
  | case1 => simp [readChunks_nil, hc]
  | case2 d h ih =>
      rw [readChunks_cons d h]
      have h1 : 0 < d.length := List.length_pos.mpr h
      simp only [List.length_cons, List.length_drop, hc] at ih ⊢
      omega

theorem serveLoop_fst (chunks : List (List Nat)) (i maxsize : Nat) (hook : Bool) :
    (serveLoop chunks i maxsize hook).1 = chunks.flatten := by
  induction chunks generalizing i with
  | nil => rfl
  | cons c rest ih => simp [serveLoop, ih]

theorem serveLoop_snd_true (chunks : List (List Nat)) (i maxsize : Nat) :
    (serveLoop chunks i maxsize true).2 =
      (List.range chunks.length).map (fun j => (i + j, chunkSize, maxsize)) := by
  induction chunks generalizing i with
  | nil => rfl
  | cons c rest ih =>
      simp [serveLoop, ih, List.range_succ_eq_map, List.map_map, Function.comp,
        Nat.add_assoc, Nat.add_comm, Nat.add_left_comm]

/-- Modelled from the spec: the token codec (`utils.prepare_token`, that is
`generate`/`split`/`combine` of §4.1) lives in `zget/utils.py`, which is not
among the sources here.  Per the spec a token has a fixed total length and
splits into a broadcast fragment and a secret fragment of agreed fixed
lengths.  Tokens are modelled as character lists; this constant is the
agreed length of the broadcast fragment. -/
def tokenBroadcastLen : Nat := 2

/-- Modelled from the spec: the fixed total length of a generated token. -/
def tokenTotalLen : Nat := 4

/-- Modelled from the spec: tokens are short alphanumeric strings. -/
def tokenAlphabet : List Char := "abcdefghijklmnopqrstuvwxyz0123456789".toList

/-- Modelled from the spec: `generate()` draws `tokenTotalLen` alphanumeric
characters; the randomness source is abstracted as `seed`. -/
def tokenGenerate (seed : Nat → Nat) : List Char :=
  (List.range tokenTotalLen).map fun i => tokenAlphabet.getD (seed i % tokenAlphabet.length) 'a'

/-- Modelled from the spec: `split` cuts a token into the broadcast fragment
and the secret fragment at the agreed fixed position. -/
def tokenSplit (t : List Char) : List Char × List Char :=
  (t.take tokenBroadcastLen, t.drop tokenBroadcastLen)

/-- Modelled from the spec: `combine` is plain concatenation of the two
fragments. -/
def tokenCombine (a b : List Char) : List Char := a ++ b

/-- A zeroconf `ServiceInfo` as built in `put`, with the positional
arguments (type, name, address, port, weight, priority, properties). -/
structure ServiceInfo where
  type_ : String
  name : String
  address : String
  port : Nat
  weight : Nat
  priority : Nat
  properties : List (String × Option String)
deriving DecidableEq

/-- The record `put` registers for one announce token:
`ServiceInfo("_zget._http._tcp.local.", tok + "._zget._http._tcp.local.",
inet_aton(address), port, 0, 0, {'path': None})`. -/
def mkServiceInfo (announce_token address : String) (port : Nat) : ServiceInfo :=
  { type_ := "_zget._http._tcp.local.",
    name := announce_token ++ "._zget._http._tcp.local.",
    address := address,
    port := port,
    weight := 0,
    priority := 0,
    properties := [("path", none)] }

/-- How one call of `put` ends: normal return, `TimeoutException`, or some
other exception propagating to the caller. -/
inductive PutOutcome where
  | success
  | timeoutError
  | exception (name : String)
deriving DecidableEq

/-- What happens inside the `try` block of `put`: both registrations and
`handle_request` complete (`ok`, with the resulting `downloaded` flag); a
`KeyboardInterrupt` arrives when `registeredCount` records are already
registered (2 means it struck during `handle_request`, the wait for a
request); or a `register_service` call raises after `registeredCount`
successful registrations. -/
inductive TryEvent where
  | ok (downloaded : Bool)
  | interrupt (registeredCount : Nat) (downloaded : Bool)
  | registerFail (registeredCount : Nat)
deriving DecidableEq

/-- The value of `server.downloaded` when the `try` block is left.  Serving
begins only after both registrations, so the flag can only have been set in
the `ok` case or by an interrupt during `handle_request`. -/
def downloadedFlag : TryEvent → Bool
  | TryEvent.ok d => d
  | TryEvent.interrupt 0 _ => false
  | TryEvent.interrupt 1 _ => false
  | TryEvent.interrupt (_ + 2) d => d
  | TryEvent.registerFail _ => false

/-- The final determination of `put`: `if timeout is not None and not
server.downloaded: raise utils.TimeoutException()`, else a normal return. -/
def finalCheck (timeout : Option Nat) (downloaded : Bool) : PutOutcome :=
  if timeout.isSome && !downloaded then PutOutcome.timeoutError else PutOutcome.success

/-- Observable effects of one `put` call: the records registered during the
run, whether `server.socket.close()` ran, the records withdrawn again (in
withdrawal order), whether `zeroconf.close()` ran, the outcome, and
`server.server_port` (the port read back from the bound socket). -/
structure PutResult where
  registered : List ServiceInfo
  socketClosed : Bool
  withdrawn : List ServiceInfo
  zeroconfClosed : Bool
  outcome : PutOutcome
  serverPort : Nat
deriving DecidableEq

/-- The lifecycle of `put` after address/interface resolution, embedded
over an explicit event describing how the `try` block went.  `sha1hex`
abstracts `hashlib.sha1(basename.encode('utf-8')).hexdigest()`; `osPort` is
the ephemeral port the OS picks when binding port 0 (`server.server_port`
reads the bound port back and is used for both announcements).  The
teardown lines are the literal suffix of `put`: `server.socket.close()`,
then `zeroconf.unregister_service(info)` where `info` is the loop variable,
holding the last registered record (a `NameError` if the interrupt struck
before the first registration left `info` unbound), then
`zeroconf.close()`, which also unregisters every still-registered service
(the behaviour of the zeroconf library's `close`).  These lines are not in
a guaranteed cleanup block: an exception from `register_service` (anything
but `KeyboardInterrupt`) propagates past them. -/
def put (sha1hex : String → String) (osPort : Nat)
    (filename broadcast_token secret_token address : String)
    (port : Nat) (timeout : Option Nat) (ev : TryEvent) : PutResult :=
  if 65535 < port then
    { registered := [], socketClosed := false, withdrawn := [],
      zeroconfClosed := false, outcome := PutOutcome.exception "ValueError",
      serverPort := 0 }
  else
    let server_port := if port = 0 then osPort else port
    let first := mkServiceInfo broadcast_token address server_port
    let last := mkServiceInfo (sha1hex (os_path_basename filename)) address server_port
    match ev with
    | TryEvent.ok d =>
        { registered := [first, last], socketClosed := true,
          withdrawn := [last, first], zeroconfClosed := true,
          outcome := finalCheck timeout d, serverPort := server_port }
    | TryEvent.interrupt 0 _ =>
        { registered := [], socketClosed := true, withdrawn := [],
          zeroconfClosed := false, outcome := PutOutcome.exception "NameError",
          serverPort := server_port }
    | TryEvent.interrupt 1 _ =>
        { registered := [first], socketClosed := true, withdrawn := [first],
          zeroconfClosed := true, outcome := finalCheck timeout false,
          serverPort := server_port }
    | TryEvent.interrupt (_ + 2) d =>
        { registered := [first, last], socketClosed := true,
          withdrawn := [last, first], zeroconfClosed := true,
          outcome := finalCheck timeout d, serverPort := server_port }
    | TryEvent.registerFail 0 =>
        { registered := [], socketClosed := false, withdrawn := [],
          zeroconfClosed := false, outcome := PutOutcome.exception "DiscoveryError",
          serverPort := server_port }
    | TryEvent.registerFail (_ + 1) =>
        { registered := [first], socketClosed := false, withdrawn := [],
          zeroconfClosed := false, outcome := PutOutcome.exception "DiscoveryError",
          serverPort := server_port }

/-- A concrete server state for witnesses: file `file.txt`, secret
credential `secret`, no reporthook. -/
def cState : ServerState :=
  { token := "secret", filename := "file.txt", basename := "file.txt",
    reporthook := false, downloaded := false }

/-- The same concrete state with a reporthook configured. -/
def cStateHook : ServerState :=
  { token := "secret", filename := "file.txt", basename := "file.txt",
    reporthook := true, downloaded := false }

/-- Claim C1: a GET request is accepted exactly for the two paths `/` +
secret token and `/` + base name; an accepted request is answered with
status 200, Content-type `application/octet-stream`, an inline
Content-disposition filename equal to the base name, a Content-length equal
to the file's size at open time, and a body that is exactly the file's
bytes; any other path is answered with status 404 and an empty body.  The
hypothesis records that `put` sets `server.basename =
os.path.basename(filename)`. -/
theorem C1_get_request_contract (st : ServerState) (d : List Nat) (p : String)
    (hb : st.basename = os_path_basename st.filename) :
    (acceptedPath st p →
      (do_GET st d p).response.status = 200 ∧
      (do_GET st d p).response.contentType = some "application/octet-stream" ∧
      (do_GET st d p).response.contentDisposition =
        some ("inline; filename=\"" ++ st.basename ++ "\"") ∧
      (do_GET st d p).response.contentLength = some d.length ∧
      (do_GET st d p).response.body = d) ∧
    (¬ acceptedPath st p →
      (do_GET st d p).response.status = 404 ∧
      (do_GET st d p).response.body = []) := by
  constructor
  · intro h
    simp [do_GET, h, hb, serveLoop_fst, readChunks_join]
  · intro h
    simp [do_GET, h, response404]

/-- Concrete instance of `C1_get_request_contract`: serving `[1, 2, 3]` for
the secret-token path. -/
theorem C1_get_request_contract_witness :
    cState.basename = os_path_basename cState.filename ∧
    acceptedPath cState "/secret" ∧
    ((do_GET cState [1, 2, 3] "/secret").response.status = 200 ∧
     (do_GET cState [1, 2, 3] "/secret").response.contentType =
       some "application/octet-stream" ∧
     (do_GET cState [1, 2, 3] "/secret").response.contentDisposition =
       some ("inline; filename=\"" ++ cState.basename ++ "\"") ∧
     (do_GET cState [1, 2, 3] "/secret").response.contentLength =
       some ([1, 2, 3] : List Nat).length ∧
     (do_GET cState [1, 2, 3] "/secret").response.body = [1, 2, 3]) :=
  ⟨by decide, by decide,
    (C1_get_request_contract cState [1, 2, 3] "/secret" (by decide)).1 (by decide)⟩

/-- Claim C2 counterexample: after a non-matching request the wait does NOT
continue.  With requests `["/evil", "/secret"]` queued against a server
whose secret is `secret`, exactly one response is sent, the `downloaded`
flag stays false (the valid second request is never served), and the
handler raises (`RuntimeError`). -/
theorem C2_counterexample :
    (runSession cState [1, 2, 3] ["/evil", "/secret"]).1.length = 1 ∧
    (runSession cState [1, 2, 3] ["/evil", "/secret"]).2 = false ∧
    (do_GET cState [1, 2, 3] "/evil").handlerError = true := by
  decide

/-- Claim C2 (amended): a request whose path matches neither accepted value
is answered with the 404 response and does not crash `put` (the handler's
`RuntimeError` is caught by the server layer), but the session does not
keep waiting: `handle_request` processes at most one request, so the
rejecting request consumes the single slot and any subsequent request,
valid or not, is never served. -/
theorem C2_single_request (st : ServerState) (d : List Nat) (bad : String)
    (rest : List String) (h : ¬ acceptedPath st bad) :
    (runSession st d (bad :: rest)).1 = [response404] ∧
    (runSession st d (bad :: rest)).2 = st.downloaded ∧
    (do_GET st d bad).handlerError = true ∧
    runSession st d (bad :: rest) = runSession st d [bad] := by
  simp [runSession, do_GET, h]

/-- Concrete instance of `C2_single_request`. -/
theorem C2_single_request_witness :
    ¬ acceptedPath cState "/evil" ∧
    ((runSession cState [1, 2, 3] ("/evil" :: ["/secret"])).1 = [response404] ∧
     (runSession cState [1, 2, 3] ("/evil" :: ["/secret"])).2 = cState.downloaded ∧
     (do_GET cState [1, 2, 3] "/evil").handlerError = true ∧
     runSession cState [1, 2, 3] ("/evil" :: ["/secret"]) =
       runSession cState [1, 2, 3] ["/evil"]) :=
  ⟨by decide, C2_single_request cState [1, 2, 3] "/evil" ["/secret"] (by decide)⟩

/-- Claim C3: for every token produced by the generator, combining the two
fragments returned by splitting it yields the token again:
`combine(split(t)) == t`. -/
theorem C3_combine_split_inverse (seed : Nat → Nat) :
    tokenCombine (tokenSplit (tokenGenerate seed)).1 (tokenSplit (tokenGenerate seed)).2 =
      tokenGenerate seed := by
  simp [tokenCombine, tokenSplit, List.take_append_drop]

/-- Claim C4: on every path that reaches the final determination (teardown
completed, recorded by `zeroconfClosed = true`), `put` raises the timeout
error exactly when a timeout was configured and the `downloaded` flag is
false; in every other such case it terminates successfully. -/
theorem C4_timeout_determination (sha1hex : String → String) (osPort : Nat)
    (filename broadcast_token secret_token address : String)
    (port : Nat) (timeout : Option Nat) (ev : TryEvent)
    (h : (put sha1hex osPort filename broadcast_token secret_token address
            port timeout ev).zeroconfClosed = true) :
    ((put sha1hex osPort filename broadcast_token secret_token address
        port timeout ev).outcome = PutOutcome.timeoutError ↔
      timeout.isSome = true ∧ downloadedFlag ev = false) ∧
    (¬ (timeout.isSome = true ∧ downloadedFlag ev = false) →
      (put sha1hex osPort filename broadcast_token secret_token address
        port timeout ev).outcome = PutOutcome.success) := by
  by_cases hp : 65535 < port
  · simp [put, hp] at h
  · rcases ev with d | ⟨k, d⟩ | k
    · cases timeout <;> cases d <;>
        simp [put, hp, finalCheck, downloadedFlag]
    · rcases k with _ | _ | n
      · simp [put, hp] at h
      · cases timeout <;> simp [put, hp, finalCheck, downloadedFlag]
      · cases timeout <;> cases d <;> simp [put, hp, finalCheck, downloadedFlag]
    · rcases k with _ | n <;> simp [put, hp] at h

/-- Concrete instance of `C4_timeout_determination`: no timeout configured,
download completed, normal return. -/
theorem C4_timeout_determination_witness :
    (put (fun _ => "aaa") 5000 "file.txt" "bt" "sec" "192.168.0.1" 8080 none
      (TryEvent.ok true)).zeroconfClosed = true ∧
    (put (fun _ => "aaa") 5000 "file.txt" "bt" "sec" "192.168.0.1" 8080 none
      (TryEvent.ok true)).outcome = PutOutcome.success :=
  ⟨by decide,
    (C4_timeout_determination (fun _ => "aaa") 5000 "file.txt" "bt" "sec"
      "192.168.0.1" 8080 none (TryEvent.ok true) (by decide)).2 (by decide)⟩

/-- Claim C5 counterexample: with a timeout configured and no completed
download, an operator interrupt during the wait for a request still makes
`put` raise the timeout error, so the abort IS reported as a failure. -/
theorem C5_counterexample :
    (put (fun _ => "aaa") 5000 "file.txt" "bt" "sec" "192.168.0.1" 8080 (some 30)
      (TryEvent.interrupt 2 false)).outcome = PutOutcome.timeoutError ∧
    (put (fun _ => "aaa") 5000 "file.txt" "bt" "sec" "192.168.0.1" 8080 (some 30)
      (TryEvent.interrupt 2 false)).outcome ≠ PutOutcome.success := by
  decide

/-- Claim C5 (amended): an operator interrupt during the wait for a request
terminates the operation without raising an error, after teardown has
completed, provided no timeout was configured or the download had already
completed; when a timeout was configured and no download occurred, the
interrupt instead ends in the timeout error (teardown still completes). -/
theorem C5_interrupt_clean_exit (sha1hex : String → String) (osPort : Nat)
    (filename broadcast_token secret_token address : String)
    (port : Nat) (timeout : Option Nat) (k : Nat) (d : Bool)
    (hp : port ≤ 65535)
    (hcase : timeout = none ∨ d = true) :
    (put sha1hex osPort filename broadcast_token secret_token address
      port timeout (TryEvent.interrupt (k + 2) d)).outcome = PutOutcome.success ∧
    (put sha1hex osPort filename broadcast_token secret_token address
      port timeout (TryEvent.interrupt (k + 2) d)).socketClosed = true ∧
    (put sha1hex osPort filename broadcast_token secret_token address
      port timeout (TryEvent.interrupt (k + 2) d)).zeroconfClosed = true := by
  have hp' : ¬ 65535 < port := Nat.not_lt.mpr hp
  rcases hcase with hc | hc <;> subst hc <;>
    simp [put, hp', finalCheck]

/-- Concrete instance of `C5_interrupt_clean_exit`: no timeout configured,
interrupt during the wait. -/
theorem C5_interrupt_clean_exit_witness :
    8080 ≤ 65535 ∧
    ((put (fun _ => "aaa") 5000 "file.txt" "bt" "sec" "192.168.0.1" 8080 none
       (TryEvent.interrupt (0 + 2) false)).outcome = PutOutcome.success ∧
     (put (fun _ => "aaa") 5000 "file.txt" "bt" "sec" "192.168.0.1" 8080 none
       (TryEvent.interrupt (0 + 2) false)).socketClosed = true ∧
     (put (fun _ => "aaa") 5000 "file.txt" "bt" "sec" "192.168.0.1" 8080 none
       (TryEvent.interrupt (0 + 2) false)).zeroconfClosed = true) :=
  ⟨by decide,
    C5_interrupt_clean_exit (fun _ => "aaa") 5000 "file.txt" "bt" "sec"
      "192.168.0.1" 8080 none 0 false (by decide) (Or.inl rfl)⟩

/-- Claim C6 counterexample: teardown is NOT unconditional.  When the
second `register_service` call raises, a record is already registered, yet
the exception propagates without closing the socket, without withdrawing
any record and without closing the zeroconf instance. -/
theorem C6_counterexample :
    (put (fun _ => "aaa") 5000 "file.txt" "bt" "sec" "192.168.0.1" 8080 none
      (TryEvent.registerFail 1)).registered ≠ [] ∧
    (put (fun _ => "aaa") 5000 "file.txt" "bt" "sec" "192.168.0.1" 8080 none
      (TryEvent.registerFail 1)).socketClosed = false ∧
    (put (fun _ => "aaa") 5000 "file.txt" "bt" "sec" "192.168.0.1" 8080 none
      (TryEvent.registerFail 1)).withdrawn = [] ∧
    (put (fun _ => "aaa") 5000 "file.txt" "bt" "sec" "192.168.0.1" 8080 none
      (TryEvent.registerFail 1)).zeroconfClosed = false ∧
    (put (fun _ => "aaa") 5000 "file.txt" "bt" "sec" "192.168.0.1" 8080 none
      (TryEvent.registerFail 1)).outcome = PutOutcome.exception "DiscoveryError" := by
  decide

/-- Claim C6 (amended): teardown (socket close, withdrawal of the
registered discovery records, zeroconf close) runs when the announce/serve
block completes normally and when it is stopped by an operator interrupt
arriving once at least one record is registered; but it is not a guaranteed
cleanup block: a service-registration failure (or any other non-interrupt
error raised in that block) propagates without any teardown. -/
theorem C6_teardown_on_completed_paths (sha1hex : String → String) (osPort : Nat)
    (filename broadcast_token secret_token address : String)
    (port : Nat) (timeout : Option Nat) (d : Bool) (k : Nat) (ev : TryEvent)
    (hp : port ≤ 65535)
    (hev : ev = TryEvent.ok d ∨ ev = TryEvent.interrupt (k + 1) d) :
    (put sha1hex osPort filename broadcast_token secret_token address
      port timeout ev).socketClosed = true ∧
    (put sha1hex osPort filename broadcast_token secret_token address
      port timeout ev).zeroconfClosed = true ∧
    ∀ info ∈ (put sha1hex osPort filename broadcast_token secret_token address
      port timeout ev).registered,
      info ∈ (put sha1hex osPort filename broadcast_token secret_token address
        port timeout ev).withdrawn := by
  have hp' : ¬ 65535 < port := Nat.not_lt.mpr hp
  rcases hev with hev | hev <;> subst hev
  · refine ⟨by simp [put, hp'], by simp [put, hp'], ?_⟩
    intro info hi
    simp [put, hp'] at hi ⊢
    tauto
  · rcases k with _ | n
    · refine ⟨by simp [put, hp'], by simp [put, hp'], ?_⟩
      intro info hi
      simp [put, hp'] at hi ⊢
      tauto
    · refine ⟨by simp [put, hp'], by simp [put, hp'], ?_⟩
      intro info hi
      simp [put, hp'] at hi ⊢
      tauto

/-- Concrete instance of `C6_teardown_on_completed_paths`, with the
universally quantified part instantiated at the broadcast record. -/
theorem C6_teardown_on_completed_paths_witness :
    8080 ≤ 65535 ∧
    (put (fun _ => "aaa") 5000 "file.txt" "bt" "sec" "192.168.0.1" 8080 none
      (TryEvent.ok true)).socketClosed = true ∧
    (put (fun _ => "aaa") 5000 "file.txt" "bt" "sec" "192.168.0.1" 8080 none
      (TryEvent.ok true)).zeroconfClosed = true ∧
    mkServiceInfo "bt" "192.168.0.1" 8080 ∈
      (put (fun _ => "aaa") 5000 "file.txt" "bt" "sec" "192.168.0.1" 8080 none
        (TryEvent.ok true)).withdrawn :=
  ⟨by decide,
    (C6_teardown_on_completed_paths (fun _ => "aaa") 5000 "file.txt" "bt" "sec"
      "192.168.0.1" 8080 none true 0 (TryEvent.ok true) (by decide) (Or.inl rfl)).1,
    (C6_teardown_on_completed_paths (fun _ => "aaa") 5000 "file.txt" "bt" "sec"
      "192.168.0.1" 8080 none true 0 (TryEvent.ok true) (by decide) (Or.inl rfl)).2.1,
    (C6_teardown_on_completed_paths (fun _ => "aaa") 5000 "file.txt" "bt" "sec"
      "192.168.0.1" 8080 none true 0 (TryEvent.ok true) (by decide) (Or.inl rfl)).2.2
      (mkServiceInfo "bt" "192.168.0.1" 8080) (by decide)⟩

/-- Claim C7: whenever teardown runs to completion (recorded by
`zeroconfClosed = true`), every discovery record that was registered is
unregistered again — the last-registered record explicitly through
`unregister_service(info)`, the remaining ones by the zeroconf library's
`close()`. -/
theorem C7_withdraw_all (sha1hex : String → String) (osPort : Nat)
    (filename broadcast_token secret_token address : String)
    (port : Nat) (timeout : Option Nat) (ev : TryEvent)
    (h : (put sha1hex osPort filename broadcast_token secret_token address
            port timeout ev).zeroconfClosed = true) :
    ∀ info ∈ (put sha1hex osPort filename broadcast_token secret_token address
      port timeout ev).registered,
      info ∈ (put sha1hex osPort filename broadcast_token secret_token address
        port timeout ev).withdrawn := by
  by_cases hp : 65535 < port
  · simp [put, hp] at h
  · rcases ev with d | ⟨k, d⟩ | k
    · intro info hi
      simp [put, hp] at hi ⊢
      tauto
    · rcases k with _ | _ | n
      · simp [put, hp] at h
      · intro info hi
        simp [put, hp] at hi ⊢
        tauto
      · intro info hi
        simp [put, hp] at hi ⊢
        tauto
    · rcases k with _ | n <;> simp [put, hp] at h

/-- Concrete instance of `C7_withdraw_all`: both announced records — the
broadcast-fragment one and the content-identifier one — are withdrawn. -/
theorem C7_withdraw_all_witness :
    (put (fun _ => "aaa") 5000 "file.txt" "bt" "sec" "192.168.0.1" 8080 none
      (TryEvent.ok true)).zeroconfClosed = true ∧
    mkServiceInfo "bt" "192.168.0.1" 8080 ∈
      (put (fun _ => "aaa") 5000 "file.txt" "bt" "sec" "192.168.0.1" 8080 none
        (TryEvent.ok true)).withdrawn ∧
    mkServiceInfo "aaa" "192.168.0.1" 8080 ∈
      (put (fun _ => "aaa") 5000 "file.txt" "bt" "sec" "192.168.0.1" 8080 none
        (TryEvent.ok true)).withdrawn :=
  ⟨by decide,
    C7_withdraw_all (fun _ => "aaa") 5000 "file.txt" "bt" "sec" "192.168.0.1"
      8080 none (TryEvent.ok true) (by decide)
      (mkServiceInfo "bt" "192.168.0.1" 8080) (by decide),
    C7_withdraw_all (fun _ => "aaa") 5000 "file.txt" "bt" "sec" "192.168.0.1"
      8080 none (TryEvent.ok true) (by decide)
      (mkServiceInfo "aaa" "192.168.0.1" 8080) (by decide)⟩

/-- Claim C8 counterexample: the registered records do NOT carry empty
service metadata.  On a concrete run both records carry the one-entry
property mapping `path` with no value (`ServiceInfo(..., {'path': None})`),
which is not the empty mapping. -/
theorem C8_counterexample :
    ((put (fun _ => "aaa") 5000 "file.txt" "bt" "sec" "192.168.0.1" 8080 none
       (TryEvent.ok true)).registered.map ServiceInfo.properties) =
      [[("path", (none : Option String))], [("path", (none : Option String))]] ∧
    [(("path" : String), (none : Option String))] ≠
      ([] : List (String × Option String)) := by
  decide

/-- Claim C8 (amended): on a run whose announce/serve block completes,
exactly one discovery record is registered per alias — one for the
broadcast fragment, one for the content identifier — under the single
service-type namespace `_zget._http._tcp.local.`, each record carrying the
same `(address, port)` pair (the port read back from the bound socket) and,
as service metadata, the single valueless entry `path` rather than an empty
mapping. -/
theorem C8_announcement_records (sha1hex : String → String) (osPort : Nat)
    (filename broadcast_token secret_token address : String)
    (port : Nat) (timeout : Option Nat) (d : Bool)
    (hp : port ≤ 65535) :
    (put sha1hex osPort filename broadcast_token secret_token address
      port timeout (TryEvent.ok d)).registered =
      [mkServiceInfo broadcast_token address
        (put sha1hex osPort filename broadcast_token secret_token address
          port timeout (TryEvent.ok d)).serverPort,
       mkServiceInfo (sha1hex (os_path_basename filename)) address
        (put sha1hex osPort filename broadcast_token secret_token address
          port timeout (TryEvent.ok d)).serverPort] ∧
    ∀ info ∈ (put sha1hex osPort filename broadcast_token secret_token address
      port timeout (TryEvent.ok d)).registered,
      info.type_ = "_zget._http._tcp.local." ∧
      info.address = address ∧
      info.port = (put sha1hex osPort filename broadcast_token secret_token address
        port timeout (TryEvent.ok d)).serverPort ∧
      info.weight = 0 ∧
      info.priority = 0 ∧
      info.properties = [("path", (none : Option String))] := by
  have hp' : ¬ 65535 < port := Nat.not_lt.mpr hp
  constructor
  · simp [put, hp']
  · intro info hi
    simp [put, hp'] at hi
    rcases hi with hi | hi <;> subst hi <;> simp [put, hp', mkServiceInfo]

/-- Concrete instance of `C8_announcement_records`, with the universally
quantified part instantiated at the broadcast record. -/
theorem C8_announcement_records_witness :
    8080 ≤ 65535 ∧
    (put (fun _ => "aaa") 5000 "file.txt" "bt" "sec" "192.168.0.1" 8080 none
      (TryEvent.ok true)).registered =
      [mkServiceInfo "bt" "192.168.0.1"
        (put (fun _ => "aaa") 5000 "file.txt" "bt" "sec" "192.168.0.1" 8080 none
          (TryEvent.ok true)).serverPort,
       mkServiceInfo ((fun _ => "aaa") (os_path_basename "file.txt")) "192.168.0.1"
        (put (fun _ => "aaa") 5000 "file.txt" "bt" "sec" "192.168.0.1" 8080 none
          (TryEvent.ok true)).serverPort] ∧
    mkServiceInfo "bt" "192.168.0.1" 8080 ∈
      (put (fun _ => "aaa") 5000 "file.txt" "bt" "sec" "192.168.0.1" 8080 none
        (TryEvent.ok true)).registered ∧
    (mkServiceInfo "bt" "192.168.0.1" 8080).properties =
      [("path", (none : Option String))] :=
  ⟨by decide,
    (C8_announcement_records (fun _ => "aaa") 5000 "file.txt" "bt" "sec"
      "192.168.0.1" 8080 none true (by decide)).1,
    by decide,
    ((C8_announcement_records (fun _ => "aaa") 5000 "file.txt" "bt" "sec"
      "192.168.0.1" 8080 none true (by decide)).2
      (mkServiceInfo "bt" "192.168.0.1" 8080) (by decide)).2.2.2.2.2⟩

/-- Claim C9: for a served file of size `N` with a configured reporthook,
the hook is invoked once per chunk with the triple
`(chunk index, chunkSize, N)`; the invocation count times `chunkSize` is at
least `N` and less than `N + chunkSize`; and the cumulative byte count at
the final invocation — the sum of the sizes of all chunks written — equals
`N`. -/
theorem C9_reporthook_contract (st : ServerState) (d : List Nat) (p : String)
    (hhook : st.reporthook = true) (hmatch : acceptedPath st p) :
    (do_GET st d p).hookCalls =
      (List.range (readChunks d).length).map (fun j => (j, chunkSize, d.length)) ∧
    d.length ≤ (do_GET st d p).hookCalls.length * chunkSize ∧
    (do_GET st d p).hookCalls.length * chunkSize < d.length + chunkSize ∧
    (((readChunks d).take (do_GET st d p).hookCalls.length).map List.length).sum =
      d.length := by
  have h1 : (do_GET st d p).hookCalls =
      (List.range (readChunks d).length).map (fun j => (j, chunkSize, d.length)) := by
    simp [do_GET, hmatch, hhook, serveLoop_snd_true]
  have hlen : (do_GET st d p).hookCalls.length = (readChunks d).length := by
    rw [h1]; simp
  refine ⟨h1, ?_, ?_, ?_⟩
  · rw [hlen]; exact (readChunks_length_bounds d).1
  · rw [hlen]; exact (readChunks_length_bounds d).2
  · rw [hlen, List.take_length, readChunks_sum_length]

/-- Concrete instance of `C9_reporthook_contract`: a three-byte file served
through the secret-token path with a reporthook configured. -/
theorem C9_reporthook_contract_witness :
    cStateHook.reporthook = true ∧
    acceptedPath cStateHook "/secret" ∧
    ((do_GET cStateHook [1, 2, 3] "/secret").hookCalls =
       (List.range (readChunks [1, 2, 3]).length).map
         (fun j => (j, chunkSize, ([1, 2, 3] : List Nat).length)) ∧
     ([1, 2, 3] : List Nat).length ≤
       (do_GET cStateHook [1, 2, 3] "/secret").hookCalls.length * chunkSize ∧
     (do_GET cStateHook [1, 2, 3] "/secret").hookCalls.length * chunkSize <
       ([1, 2, 3] : List Nat).length + chunkSize ∧
     (((readChunks [1, 2, 3]).take
         (do_GET cStateHook [1, 2, 3] "/secret").hookCalls.length).map
           List.length).sum = ([1, 2, 3] : List Nat).length) :=
  ⟨rfl, by decide,
    C9_reporthook_contract cStateHook [1, 2, 3] "/secret" rfl (by decide)⟩

/-- Claim C10: when `put` runs with port 0, the server reads the actual
OS-assigned bound port back (`port = server.server_port`), and every
registered discovery record carries that port, which is not 0. -/
theorem C10_ephemeral_port (sha1hex : String → String) (osPort : Nat)
    (filename broadcast_token secret_token address : String)
    (timeout : Option Nat) (ev : TryEvent)
    (hos : 0 < osPort) :
    (put sha1hex osPort filename broadcast_token secret_token address
      0 timeout ev).serverPort = osPort ∧
    0 < (put sha1hex osPort filename broadcast_token secret_token address
      0 timeout ev).serverPort ∧
    ∀ info ∈ (put sha1hex osPort filename broadcast_token secret_token address
      0 timeout ev).registered,
      info.port = osPort := by
  rcases ev with d | ⟨k, d⟩ | k
  · refine ⟨by simp [put], by simp [put]; exact hos, ?_⟩
    intro info hi
    simp [put] at hi
    rcases hi with hi | hi <;> subst hi <;> simp [mkServiceInfo]
  · rcases k with _ | _ | n
    · exact ⟨by simp [put], by simp [put]; exact hos, by intro info hi; simp [put] at hi⟩
    · refine ⟨by simp [put], by simp [put]; exact hos, ?_⟩
      intro info hi
      simp [put] at hi
      subst hi; simp [mkServiceInfo]
    · refine ⟨by simp [put], by simp [put]; exact hos, ?_⟩
      intro info hi
      simp [put] at hi
      rcases hi with hi | hi <;> subst hi <;> simp [mkServiceInfo]
  · rcases k with _ | n
    · exact ⟨by simp [put], by simp [put]; exact hos, by intro info hi; simp [put] at hi⟩
    · refine ⟨by simp [put], by simp [put]; exact hos, ?_⟩
      intro info hi
      simp [put] at hi
      subst hi; simp [mkServiceInfo]

/-- Concrete instance of `C10_ephemeral_port`: the OS assigns port 54321,
and the broadcast record carries 54321, not 0. -/
theorem C10_ephemeral_port_witness :
    0 < 54321 ∧
    (put (fun _ => "aaa") 54321 "file.txt" "bt" "sec" "192.168.0.1" 0 none
      (TryEvent.ok true)).serverPort = 54321 ∧
    mkServiceInfo "bt" "192.168.0.1" 54321 ∈
      (put (fun _ => "aaa") 54321 "file.txt" "bt" "sec" "192.168.0.1" 0 none
        (TryEvent.ok true)).registered ∧
    (mkServiceInfo "bt" "192.168.0.1" 54321).port = 54321 :=
  ⟨by decide,
    (C10_ephemeral_port (fun _ => "aaa") 54321 "file.txt" "bt" "sec"
      "192.168.0.1" none (TryEvent.ok true) (by decide)).1,
    by decide,
    (C10_ephemeral_port (fun _ => "aaa") 54321 "file.txt" "bt" "sec"
      "192.168.0.1" none (TryEvent.ok true) (by decide)).2.2
      (mkServiceInfo "bt" "192.168.0.1" 54321) (by decide)⟩

end ZgetPut
